import Mathlib

/-!
Verification of the `bimg` Conan recipe (`src/conanfile.py`).

The recipe is a packaging script: it derives a version from a git commit
count, translates Conan settings into genie/make/MSBuild invocations via
static lookup tables, and copies/renames the build outputs into an
`include/`, `lib/`, `bin/` package layout.

This file gives a shallow embedding of the recipe logic:
pure Python expressions become Lean functions, dictionary lookups that can
raise `KeyError` become `Option`-valued functions (`none` = `KeyError`),
and code that can raise exceptions becomes `Except`-valued functions.
-/

namespace BimgConan

/-! ## Version computation (`set_version`, conanfile.py lines 114-126)

`set_version` counts the commits on `master` and derives the version
`f"{verMajor}.{verMinor}.{verRev}"` from that count. -/

/-- `verMajor = 1 + (numCommits // 10000)` (conanfile.py line 122). -/
def verMajor (numCommits : Nat) : Nat := 1 + numCommits / 10000

/-- `verMinor = (numCommits // 100) % 100` (conanfile.py line 123). -/
def verMinor (numCommits : Nat) : Nat := numCommits / 100 % 100

/-- `verRev = numCommits % 100` (conanfile.py line 124). -/
def verRev (numCommits : Nat) : Nat := numCommits % 100

/-- `self.version = f"{verMajor}.{verMinor}.{verRev}"` (conanfile.py line 126). -/
def setVersionString (numCommits : Nat) : String :=
  toString (verMajor numCommits) ++ "." ++ toString (verMinor numCommits)
    ++ "." ++ toString (verRev numCommits)

/-! ## Version decoding (`cloneVersion`, conanfile.py lines 158-167)

`cloneVersion` splits the version string into the triple
`(splitVer[0], splitVer[1], splitVer[2])` and reconstructs the commit
count as `splitVer[2] + splitVer[1] * 100 + (splitVer[0] - 1) * 10000`.
Python integers are unbounded and the subtraction can go negative, so the
embedding uses `Int`. -/

/-- `int(splitVer[2]) + int(splitVer[1]) * 100 + (int(splitVer[0]) - 1) * 10000`
(conanfile.py line 164, the reconstruction applied to the parsed triple). -/
def cloneVersionDecode (major minor rev : Nat) : Int :=
  (rev : Int) + (minor : Int) * 100 + ((major : Int) - 1) * 10000

/-- `numCommitsBack = numCommitsLatest - (...)` (conanfile.py line 164). -/
def numCommitsBack (latest major minor rev : Nat) : Int :=
  (latest : Int) - cloneVersionDecode major minor rev

/-- `cloneVersion` runs `git checkout HEAD~numCommitsBack` exactly when
`numCommitsBack > 0` (conanfile.py lines 165-166). -/
def cloneVersionChecksOut (latest major minor rev : Nat) : Bool :=
  0 < numCommitsBack latest major minor rev

/-- Reconstructing the commit count from the encoded triple is the identity. -/
theorem decode_encode (n : Nat) :
    cloneVersionDecode (verMajor n) (verMinor n) (verRev n) = (n : Int) := by
  simp only [cloneVersionDecode, verMajor, verMinor, verRev]
  omega

/-- C1: for every nonnegative commit count `n`, `set_version` computes the
version string `"M.m.r"` with `M = 1 + (n div 10000)`, `m = (n div 100) mod 100`,
`r = n mod 100`; the triple is a pure deterministic function of `n` alone,
so two runs on the same `n` yield the same version. -/
theorem set_version_formula (n : Nat) :
    setVersionString n
      = toString (1 + n / 10000) ++ "." ++ toString (n / 100 % 100)
          ++ "." ++ toString (n % 100)
    ∧ ∀ n2 : Nat, n2 = n → setVersionString n2 = setVersionString n := by
  refine ⟨rfl, ?_⟩
  intro n2 h
  rw [h]

/-- Witness for `set_version_formula` at `n = 12345`:
the version computed is `"2.23.45"`. -/
theorem set_version_formula_witness :
    setVersionString 12345
      = toString (1 + 12345 / 10000) ++ "." ++ toString (12345 / 100 % 100)
          ++ "." ++ toString (12345 % 100)
    ∧ setVersionString 12345 = "2.23.45" := by
  refine ⟨(set_version_formula 12345).1, ?_⟩
  have h := (set_version_formula 12345).2 12345 rfl
  decide

/-- C5: decoding the triple produced by `set_version` with `cloneVersion`'s
reconstruction yields exactly `n`; consequently `cloneVersion` computes
`numCommitsBack = latest - n`, and checks out `HEAD~(latest - n)` exactly
when `latest > n`. -/
theorem clone_version_roundtrip (n latest : Nat) :
    cloneVersionDecode (verMajor n) (verMinor n) (verRev n) = (n : Int)
    ∧ numCommitsBack latest (verMajor n) (verMinor n) (verRev n)
        = (latest : Int) - (n : Int)
    ∧ (cloneVersionChecksOut latest (verMajor n) (verMinor n) (verRev n) = true
        ↔ n < latest) := by
  refine ⟨decode_encode n, ?_, ?_⟩
  · simp only [numCommitsBack, decode_encode n]
  · simp only [cloneVersionChecksOut, numCommitsBack, decode_encode n,
      decide_eq_true_eq]
    omega

/-- Witness for `clone_version_roundtrip`: for `n = 12345` commits encoded
and `latest = 20000` commits on master, a checkout does happen. -/
theorem clone_version_roundtrip_witness :
    cloneVersionChecksOut 20000 (verMajor 12345) (verMinor 12345) (verRev 12345)
      = true :=
  (clone_version_roundtrip 12345 20000).2.2.mpr (by decide)

/-- C9: the minor and revision components lie in `[0, 99]`, the major
component is at least `1`, and the encoding `n ↦ (M, m, r)` is injective. -/
theorem version_components_bounded_injective (n m : Nat) :
    1 ≤ verMajor n ∧ verMinor n ≤ 99 ∧ verRev n ≤ 99
    ∧ (verMajor n = verMajor m ∧ verMinor n = verMinor m ∧ verRev n = verRev m
        → n = m) := by
  simp only [verMajor, verMinor, verRev]
  omega

/-- Witness for `version_components_bounded_injective`: at `n = m = 987654`
the components are in range and the injectivity implication applies. -/
theorem version_components_bounded_injective_witness :
    1 ≤ verMajor 987654 ∧ verMinor 987654 ≤ 99 ∧ verRev 987654 ≤ 99
    ∧ (987654 : Nat) = 987654 := by
  have h := version_components_bounded_injective 987654 987654
  exact ⟨h.1, h.2.1, h.2.2.1, h.2.2.2 ⟨rfl, rfl, rfl⟩⟩

/-! ## Conan settings and helpers

Conan settings values (`os`, `arch`, `compiler`, `build_type`) are strings;
the recipe compares and looks them up as strings, so the embedding keeps
them as `String`. Compiler and package versions are dotted numeric strings
compared by conan's `Version`; the embedding models them as `List Nat`
compared lexicographically with zero-padding. -/

/-- Model of conan's `Version` strict comparison on dotted numeric versions
(missing trailing components count as `0`). External conan helper. -/
def versionLt : List Nat → List Nat → Bool
  | [], bs => bs.any (fun b => 0 < b)
  | _ :: _, [] => false
  | a :: as, b :: bs => a < b || (a == b && versionLt as bs)

/-- Model of conan's `is_msvc` helper: the compiler is `msvc` or the legacy
`Visual Studio`. External conan helper. -/
def is_msvc (compiler : String) : Bool :=
  compiler == "msvc" || compiler == "Visual Studio"

/-- The subset of Conan settings the recipe reads.  `fPIC` is `none` when the
option was deleted (`config_options` deletes it on Windows); `cppstd` is
`none` when not set. `build_arch` is `settings_build.arch`. -/
structure Settings where
  os : String
  arch : String
  build_arch : String
  compiler : String
  compiler_version : List Nat
  cppstd : Option Nat
  fPIC : Option Bool
  version : List Nat
  tools : Bool
deriving DecidableEq

/-! ## `validate` (conanfile.py lines 128-144)

`validate` raises `ConanInvalidConfiguration` explicitly at four sites and
wraps the `_compiler_required` lookup in `try/except KeyError`, turning the
key-not-found case into a warning.  The embedding returns
`Except String (List String)`: `error msg` models an exception escaping
`validate`, `ok warnings` models a normal return with the emitted warnings. -/

/-- `self._compiler_required` (conanfile.py lines 82-90): minimum compiler
versions; `none` models a `KeyError` on lookup. -/
def compiler_required (compiler : String) : Option (List Nat) :=
  if compiler == "gcc" then some [8]
  else if compiler == "clang" then some [11]
  else if compiler == "apple-clang" then some [12]
  else if compiler == "msvc" then some [192]
  else if compiler == "Visual Studio" then some [16]
  else none

def fpicText : String := "This package does not support builds without fPIC."
def crossBuildText : String :=
  "This version of the package cannot be cross-built to Linux x86 due to old astc breaking that."
def cpp17Text : String :=
  "This package requires C++17 support. The current compiler does not support it."
def mingwText : String :=
  "Building with mingw on Windows requires 64bit Windows and x86_64-w64-mingw32-g++."
def compilerWarnText : String :=
  "This recipe has no checking for the current compiler. Please consider adding it."

/-- Model of conan's `check_min_cppstd(self, 17)`: raises when the configured
`cppstd` is below 17 (only called when `cppstd` is set). External conan
helper; the message stands in for conan's own. -/
def check_min_cppstd_17 (cppstd : Nat) : Except String Unit :=
  if cppstd < 17 then Except.error "Current cppstd is lower than the required C++ standard (17)."
  else Except.ok ()

/-- Model of conan's `check_min_vs(self, 191)`: for `msvc` requires
version >= 191, for legacy `Visual Studio` requires >= 15, and is a no-op for
other compilers. External conan helper. -/
def check_min_vs_191 (compiler : String) (v : List Nat) : Except String Unit :=
  if compiler == "msvc" then
    if versionLt v [191] then Except.error "check_min_vs failed" else Except.ok ()
  else if compiler == "Visual Studio" then
    if versionLt v [15] then Except.error "check_min_vs failed" else Except.ok ()
  else Except.ok ()

/-- `validate` (conanfile.py lines 128-144), with the same check order:
fPIC, cppstd, cross-build, `check_min_vs`, then for non-MSVC compilers the
`try: _compiler_required[...] except KeyError: warn` block followed by the
mingw architecture check. -/
def validate (s : Settings) : Except String (List String) :=
  if !(s.fPIC.getD true) then Except.error fpicText
  else
    match (match s.cppstd with
           | some c => check_min_cppstd_17 c
           | none => Except.ok ()) with
    | Except.error e => Except.error e
    | Except.ok () =>
      if versionLt s.version [1, 3, 30] ∧ (s.os = "Linux" ∨ s.os = "FreeBSD")
          ∧ s.arch = "x86_64" ∧ s.build_arch = "x86" then
        Except.error crossBuildText
      else
        match check_min_vs_191 s.compiler s.compiler_version with
        | Except.error e => Except.error e
        | Except.ok () =>
          if !(is_msvc s.compiler) then
            match compiler_required s.compiler with
            | some minVer =>
              if versionLt s.compiler_version minVer then Except.error cpp17Text
              else if s.os = "Windows" ∧ s.arch ≠ "x86_64" then Except.error mingwText
              else Except.ok []
            | none =>
              if s.os = "Windows" ∧ s.arch ≠ "x86_64" then Except.error mingwText
              else Except.ok [compilerWarnText]
          else Except.ok []

/-! ## Build targets (`_lib_target_prefix`, `_tool_target_prefix`, `_projs`,
conanfile.py lines 61-80) -/

/-- `self._lib_target_prefix` (conanfile.py lines 61-66): `"libs\\"` on
Windows, empty otherwise. -/
def lib_target_pfx (os : String) : String :=
  if os == "Windows" then "libs\\" else ""

/-- `self._tool_target_prefix` (conanfile.py lines 68-73): `"tools\\"` on
Windows, empty otherwise. -/
def tool_target_pfx (os : String) : String :=
  if os == "Windows" then "tools\\" else ""

/-- `self._projs` (conanfile.py lines 75-80): three library targets, plus
`texturec` when the `tools` option is set. -/
def projs (os : String) (tools : Bool) : List String :=
  let base := [lib_target_pfx os ++ "bimg", lib_target_pfx os ++ "bimg_decode",
               lib_target_pfx os ++ "bimg_encode"]
  if tools then base ++ [tool_target_pfx os ++ "texturec"] else base

/-- The target list passed to `msbuild.build(..., targets=self._projs)`
(conanfile.py line 215). -/
def msbuild_targets (os : String) (tools : Bool) : List String := projs os tools

/-- The target list iterated by the make loop
`for proj in self._projs: autotools.make(target=proj, ...)`
(conanfile.py lines 270-271). -/
def make_loop_targets (os : String) (tools : Bool) : List String := projs os tools

/-! ## `build` translation tables (conanfile.py lines 199-257)

Python dictionary lookups raise `KeyError` on a missing key; the embedding
returns `none` for that case. -/

/-- `vs_ver_to_genie` (conanfile.py lines 201-202). -/
def vs_ver_to_genie (v : String) : Option String :=
  if v == "17" then some "2022"
  else if v == "16" then some "2019"
  else if v == "15" then some "2017"
  else if v == "194" then some "2022"
  else if v == "193" then some "2022"
  else if v == "192" then some "2019"
  else if v == "191" then some "2017"
  else none

/-- `compiler_and_os_to_genie` (conanfile.py lines 223-225). -/
def compiler_and_os_to_genie (compiler_str os : String) : Option String :=
  if os == "Windows" then some ("--gcc=mingw-" ++ compiler_str)
  else if os == "Linux" then some ("--gcc=linux-" ++ compiler_str)
  else if os == "FreeBSD" then some "--gcc=freebsd"
  else if os == "Macos" then some "--gcc=osx"
  else if os == "Android" then some "--gcc=android"
  else if os == "iOS" then some "--gcc=ios"
  else none

/-- `gmake_os_to_proj` (conanfile.py line 226). -/
def gmake_os_to_proj (os : String) : Option String :=
  if os == "Windows" then some "mingw"
  else if os == "Linux" then some "linux"
  else if os == "FreeBSD" then some "freebsd"
  else if os == "Macos" then some "osx"
  else if os == "Android" then some "android"
  else if os == "iOS" then some "ios"
  else none

/-- `os_to_use_arch_config_suffix` (conanfile.py line 229). -/
def os_to_use_arch_config_suffix (os : String) : Option Bool :=
  if os == "Windows" then some false
  else if os == "Linux" then some false
  else if os == "FreeBSD" then some false
  else if os == "Macos" then some true
  else if os == "Android" then some true
  else if os == "iOS" then some true
  else none

/-- `build_type_to_make_config` (conanfile.py line 231). -/
def build_type_to_make_config (bt : String) : Option String :=
  if bt == "Debug" then some "config=debug"
  else if bt == "Release" then some "config=release"
  else none

/-- `arch_to_make_config_suffix` (conanfile.py line 232). -/
def arch_to_make_config_suffix (arch : String) : Option String :=
  if arch == "x86" then some "32"
  else if arch == "x86_64" then some "64"
  else none

/-- `os_to_use_make_config_suffix` (conanfile.py line 233). -/
def os_to_use_make_config_suffix (os : String) : Option Bool :=
  if os == "Windows" then some true
  else if os == "Linux" then some true
  else if os == "FreeBSD" then some true
  else if os == "Macos" then some false
  else if os == "Android" then some false
  else if os == "iOS" then some false
  else none

/-- The make configuration argument `conf` built in the non-MSVC branch of
`build` (conanfile.py lines 255-257): the `build_type_to_make_config`
lookup, with the `arch_to_make_config_suffix` lookup appended when
`os_to_use_make_config_suffix` says so.  `none` models a `KeyError` in any
of the three lookups. -/
def makeConf (os build_type arch : String) : Option String :=
  match build_type_to_make_config build_type with
  | none => none
  | some conf =>
    match os_to_use_make_config_suffix os with
    | none => none
    | some useSuffix =>
      if useSuffix then
        match arch_to_make_config_suffix arch with
        | none => none
        | some suf => some (conf ++ suf)
      else some conf

/-! ## `package` (conanfile.py lines 273-324) -/

/-- `self.settings.os == "Windows" and is_msvc(self)` (conanfile.py line 275),
the platform test selecting the MSVC file conventions in `package`. -/
def msvc_windows (os compiler : String) : Bool :=
  os == "Windows" && is_msvc compiler

/-- `lib_ext` (conanfile.py lines 276/279): `["*.lib", "*.pdb"]` on MSVC
Windows, `["*.a"]` otherwise. -/
def lib_ext (msvcWin : Bool) : List String :=
  if msvcWin then ["*.lib", "*.pdb"] else ["*.a"]

/-- `self.expectedNumLibs` (conanfile.py line 30). -/
def expectedNumLibs : Nat := 3

/-- `self.invalidPackageExceptionText` (conanfile.py line 29). -/
def invalidPackageExceptionText : String :=
  "Less lib files found for copy than expected. Aborting."

/-- The validation on conanfile.py lines 294-295: if the number of library
files copied by `copy(..., pattern=lib_ext[0], ...)` is below
`expectedNumLibs`, `raise Exception(self.invalidPackageExceptionText)`. -/
def checkLibCount (numCopied : Nat) : Except String Unit :=
  if numCopied < expectedNumLibs then Except.error invalidPackageExceptionText
  else Except.ok ()

/-- A `copy` invocation in `package`, reduced to its glob pattern and the
package subdirectory it writes into. -/
structure CopyOp where
  pattern : String
  dst : String
deriving DecidableEq

/-- The sequence of `copy` calls `package` makes (conanfile.py lines
289-303), in order: the license, the two include patterns, `lib_ext[0]`
into `lib/`, the optional debug-info patterns `lib_ext[1:]` into `lib/`,
and `texturec*` into `bin/` only when the `tools` option is set. -/
def packageCopies (msvcWin tools : Bool) : List CopyOp :=
  [⟨"LICENSE", "licenses"⟩, ⟨"*.h", "include"⟩, ⟨"*.inl", "include"⟩,
   ⟨(lib_ext msvcWin).headD "", "lib"⟩]
  ++ ((lib_ext msvcWin).drop 1).map (fun p => ⟨p, "lib"⟩)
  ++ (if tools then [⟨"texturec*", "bin"⟩] else [])

/-- `sub` occurs as a contiguous run at some position of the list: scan
every suffix for `sub` as a prefix. -/
def occursInChars (sub : List Char) : List Char → Bool
  | [] => sub.isEmpty
  | c :: cs => sub.isPrefixOf (c :: cs) || occursInChars sub cs

/-- `str.find(sub) >= 0` in Python: `sub` occurs as a contiguous substring
of `s`. -/
def occursIn (sub s : String) : Bool := occursInChars sub.data s.data

/-- `package_lib_prefix` (conanfile.py lines 277/280): empty on MSVC
Windows, `"lib"` otherwise. -/
def package_lib_pfx (msvcWin : Bool) : String := if msvcWin then "" else "lib"

/-- A file in the package `lib/` directory: its full name and its
`Path.suffix` (the final extension, dot included). -/
structure PFile where
  name : String
  suffix : String
deriving DecidableEq

/-- The new name the rename loop gives a matched file (conanfile.py lines
306-314): `f"{package_lib_prefix}bimg{fExtra}{out_file.suffix}"` where
`fExtra` is `"_encode"` when the name contains `"encode"`, otherwise
`"_decode"` when it contains `"decode"`, otherwise empty. -/
def renameTarget (msvcWin : Bool) (name suffix : String) : String :=
  let fExtra := if occursIn "encode" name then "_encode"
                else if occursIn "decode" name then "_decode"
                else ""
  package_lib_pfx msvcWin ++ "bimg" ++ fExtra ++ suffix

/-- The rename loop over `Path(lib).glob("*bimg*")` (conanfile.py lines
306-314): every file whose name contains `"bimg"` and whose suffix is not
`".pdb"` is renamed to `renameTarget`; other files are untouched. -/
def renameStep (msvcWin : Bool) (files : List PFile) : List PFile :=
  files.map (fun f =>
    if occursIn "bimg" f.name && f.suffix ≠ ".pdb" then
      ⟨renameTarget msvcWin f.name f.suffix, f.suffix⟩
    else f)

/-- `rm(self, pattern="*bx*", folder=...lib)` (conanfile.py line 321):
every file whose name contains `"bx"` is removed. -/
def rmStep (files : List PFile) : List PFile :=
  files.filter (fun f => !occursIn "bx" f.name)

/-- The net effect of `package` on the `lib/` directory contents after the
libraries have been copied in: the rename loop (lines 306-314) followed by
the `*bx*` cleanup (line 321). -/
def packageLibDir (msvcWin : Bool) (files : List PFile) : List PFile :=
  rmStep (renameStep msvcWin files)

/-- C2: in `package`, if the number of library files copied from the build
bin directory (pattern `*.lib` on MSVC Windows, `*.a` otherwise) is strictly
below the hard-coded `expectedNumLibs = 3`, a generic `Exception` with the
fixed message `"Less lib files found for copy than expected. Aborting."` is
raised; with at least 3 files the validation raises nothing. -/
theorem package_lib_count_check (msvcWin : Bool) (n : Nat) :
    (lib_ext msvcWin).headD "" = (if msvcWin then "*.lib" else "*.a")
    ∧ expectedNumLibs = 3
    ∧ (n < 3 → checkLibCount n
        = Except.error "Less lib files found for copy than expected. Aborting.")
    ∧ (3 ≤ n → checkLibCount n = Except.ok ()) := by
  refine ⟨by cases msvcWin <;> rfl, rfl, ?_, ?_⟩ <;> intro h
  · simp [checkLibCount, expectedNumLibs, invalidPackageExceptionText, h]
  · simp [checkLibCount, expectedNumLibs, Nat.not_lt.mpr h]

/-- Witness for `package_lib_count_check`: 2 copied files raise, 3 do not. -/
theorem package_lib_count_check_witness :
    checkLibCount 2
      = Except.error "Less lib files found for copy than expected. Aborting."
    ∧ checkLibCount 3 = Except.ok () :=
  ⟨(package_lib_count_check true 2).2.2.1 (by decide),
   (package_lib_count_check false 3).2.2.2 (by decide)⟩

/-- C3 counterexample: the output-file-count check is not the recipe's only
explicit error handling.  `validate` explicitly raises
`ConanInvalidConfiguration` — here, on a Linux gcc configuration with the
`fPIC` option disabled, `validate` raises with the fPIC message. -/
theorem validate_also_raises_counterexample :
    validate ⟨"Linux", "x86_64", "x86_64", "gcc", [11], none, some false,
              [1, 3, 30], false⟩
      = Except.error "This package does not support builds without fPIC." := by
  rfl

/-- C3 (amended): the recipe's explicit error handling is not limited to the
`package` output-file-count check: `validate` also explicitly raises
`ConanInvalidConfiguration` — whenever the `fPIC` option is present and
disabled, `validate` raises with the fPIC message (and it also catches
`KeyError` around the compiler-requirement lookup). -/
theorem validate_fpic_raises (s : Settings) (h : s.fPIC = some false) :
    validate s = Except.error fpicText := by
  simp [validate, h]

/-- Witness for `validate_fpic_raises` on a concrete macOS configuration. -/
theorem validate_fpic_raises_witness :
    validate ⟨"Macos", "x86_64", "x86_64", "apple-clang", [12], none,
              some false, [1, 3, 30], false⟩
      = Except.error fpicText :=
  validate_fpic_raises _ rfl

/-- A compiler absent from `_compiler_required` is neither `msvc` nor
`Visual Studio`, so `is_msvc` is false for it. -/
theorem compiler_required_none_not_msvc (c : String)
    (hc : compiler_required c = none) : is_msvc c = false := by
  cases h : is_msvc c with
  | false => rfl
  | true =>
    exfalso
    simp only [is_msvc, Bool.or_eq_true, beq_iff_eq] at h
    rcases h with h | h <;> subst h <;> simp [compiler_required] at hc

/-- C4 counterexample: a compiler absent from the minimum-version table does
NOT raise `KeyError` to the caller: the lookup sits in a
`try/except KeyError` block, so `validate` returns normally with only a
warning for the unknown compiler `intel-cc`. -/
theorem compiler_keyerror_caught_counterexample :
    compiler_required "intel-cc" = none
    ∧ validate ⟨"Linux", "x86_64", "x86_64", "intel-cc", [2021], none,
                some true, [1, 3, 30], false⟩
      = Except.ok
          ["This recipe has no checking for the current compiler. Please consider adding it."] :=
  ⟨by decide, by rfl⟩

/-- C4 (amended): an OS absent from the genie translation tables in `build`
and an MSVC compiler version absent from `vs_ver_to_genie` each surface as
an unhandled key-not-found condition; but a compiler absent from the
minimum-version table in `validate` does not — that `KeyError` is caught
and `validate` returns normally, emitting only a warning (provided no other
check in `validate` fires). -/
theorem unsupported_combination_keyerrors (c os v : String) (s : Settings)
    (hos : os ∉ ["Windows", "Linux", "FreeBSD", "Macos", "Android", "iOS"])
    (hv : v ∉ ["17", "16", "15", "194", "193", "192", "191"])
    (hc : compiler_required s.compiler = none)
    (hfp : s.fPIC.getD true = true)
    (hcpp : s.cppstd = none)
    (hcross : ¬(versionLt s.version [1, 3, 30] ∧ (s.os = "Linux" ∨ s.os = "FreeBSD")
        ∧ s.arch = "x86_64" ∧ s.build_arch = "x86"))
    (hwin : ¬(s.os = "Windows" ∧ s.arch ≠ "x86_64")) :
    compiler_and_os_to_genie c os = none
    ∧ vs_ver_to_genie v = none
    ∧ validate s = Except.ok [compilerWarnText] := by
  simp only [List.mem_cons, List.not_mem_nil, or_false, not_or] at hos hv
  obtain ⟨ho1, ho2, ho3, ho4, ho5, ho6⟩ := hos
  obtain ⟨hv1, hv2, hv3, hv4, hv5, hv6, hv7⟩ := hv
  have hmsvc : is_msvc s.compiler = false := compiler_required_none_not_msvc _ hc
  have hnm : (s.compiler == "msvc") = false ∧ (s.compiler == "Visual Studio") = false := by
    simpa [is_msvc] using hmsvc
  refine ⟨?_, ?_, ?_⟩
  · simp [compiler_and_os_to_genie, ho1, ho2, ho3, ho4, ho5, ho6]
  · simp [vs_ver_to_genie, hv1, hv2, hv3, hv4, hv5, hv6, hv7]
  · simp [validate, hfp, hcpp, hcross, check_min_vs_191, hnm.1, hnm.2,
      hmsvc, hc, hwin]

/-- Witness for `unsupported_combination_keyerrors` at a concrete
unsupported OS (`Emscripten`), compiler version (`14`) and compiler
(`sun-cc`). -/
theorem unsupported_combination_keyerrors_witness :
    compiler_and_os_to_genie "gcc" "Emscripten" = none
    ∧ vs_ver_to_genie "14" = none
    ∧ validate ⟨"Macos", "armv8", "armv8", "sun-cc", [5], none, none,
                [1, 3, 30], false⟩
      = Except.ok [compilerWarnText] :=
  unsupported_combination_keyerrors "gcc" "Emscripten" "14" _
    (by decide) (by decide) (by decide) (by decide) (by decide)
    (by decide) (by decide)

/-- C6: for every non-MSVC build over the supported tables, the make
configuration argument is `"config=debug"` for `Debug` and
`"config=release"` for `Release`, with the suffix `"32"` (x86) or `"64"`
(x86_64) appended exactly when the target OS is Windows, Linux or FreeBSD;
it is a pure function of the settings via the static tables. -/
theorem make_config_argument (os bt arch : String)
    (hos : os ∈ ["Windows", "Linux", "FreeBSD", "Macos", "Android", "iOS"])
    (hbt : bt ∈ ["Debug", "Release"])
    (ha : arch ∈ ["x86", "x86_64"]) :
    makeConf os bt arch
      = some ((if bt = "Debug" then "config=debug" else "config=release")
          ++ (if os = "Windows" ∨ os = "Linux" ∨ os = "FreeBSD" then
                (if arch = "x86" then "32" else "64")
              else "")) := by
  simp only [List.mem_cons, List.not_mem_nil, or_false] at hos hbt ha
  rcases hos with rfl | rfl | rfl | rfl | rfl | rfl <;>
    rcases hbt with rfl | rfl <;>
    rcases ha with rfl | rfl <;> decide

/-- Witness for `make_config_argument`: a Linux x86_64 Release build gets
`"config=release64"`. -/
theorem make_config_argument_witness :
    makeConf "Linux" "Release" "x86_64" = some "config=release64" := by
  rw [make_config_argument "Linux" "Release" "x86_64" (by decide) (by decide)
    (by decide)]
  decide

/-- C7: `package` copies `*.h` and `*.inl` into `include/`, the library
pattern into `lib/`, and `texturec*` into `bin/` exactly when the `tools`
option is `True`; when `tools` is `False` nothing is copied into `bin/`. -/
theorem package_copy_layout (msvcWin tools : Bool) :
    CopyOp.mk "*.h" "include" ∈ packageCopies msvcWin tools
    ∧ CopyOp.mk "*.inl" "include" ∈ packageCopies msvcWin tools
    ∧ CopyOp.mk ((lib_ext msvcWin).headD "") "lib" ∈ packageCopies msvcWin tools
    ∧ (tools = true → CopyOp.mk "texturec*" "bin" ∈ packageCopies msvcWin tools)
    ∧ (tools = false → ∀ op ∈ packageCopies msvcWin tools, op.dst ≠ "bin") := by
  cases msvcWin <;> cases tools <;> decide

/-- Witness for `package_copy_layout`: with `tools` on, `texturec*` goes to
`bin/`; with `tools` off, no copy targets `bin/`. -/
theorem package_copy_layout_witness :
    CopyOp.mk "texturec*" "bin" ∈ packageCopies true true
    ∧ ∀ op ∈ packageCopies true false, op.dst ≠ "bin" :=
  ⟨(package_copy_layout true true).2.2.2.1 rfl,
   (package_copy_layout true false).2.2.2.2 rfl⟩

/-- C10: `_projs` is exactly the three library targets `bimg`,
`bimg_decode`, `bimg_encode` in that order (prefixed `"libs\\"` on
Windows), extended by the single tool target `texturec` exactly when the
`tools` option is set; the same list is handed to MSBuild and iterated by
the make loop. -/
theorem projs_targets (os : String) (tools : Bool) :
    projs os tools
      = [lib_target_pfx os ++ "bimg", lib_target_pfx os ++ "bimg_decode",
         lib_target_pfx os ++ "bimg_encode"]
        ++ (if tools then [tool_target_pfx os ++ "texturec"] else [])
    ∧ msbuild_targets os tools = projs os tools
    ∧ make_loop_targets os tools = projs os tools
    ∧ ((tool_target_pfx os ++ "texturec") ∈ projs os tools ↔ tools = true) := by
  refine ⟨by cases tools <;> simp [projs], rfl, rfl, ?_⟩
  by_cases h : os = "Windows"
  · subst h
    cases tools <;> simp [projs, lib_target_pfx, tool_target_pfx]
  · have hb : (os == "Windows") = false := by simp [h]
    cases tools <;> simp [projs, lib_target_pfx, tool_target_pfx, hb]

/-- Witness for `projs_targets`: on Windows with tools enabled the
`texturec` target is in the list. -/
theorem projs_targets_witness :
    (tool_target_pfx "Windows" ++ "texturec") ∈ projs "Windows" true :=
  (projs_targets "Windows" true).2.2.2.mpr rfl

/-- C8: in `package`, every library file whose name contains `"bimg"` and
whose suffix is not `.pdb` is renamed to `{prefix}bimg{suffix}`,
`{prefix}bimg_encode{suffix}` or `{prefix}bimg_decode{suffix}` (prefix
`"lib"` except on MSVC Windows, where it is empty), with `"_encode"` chosen
whenever the original name contains `"encode"` even if it also contains
`"decode"`; after the cleanup no file matching `*bx*` remains in `lib/`. -/
theorem package_rename_and_cleanup (msvcWin : Bool) (files : List PFile)
    (f : PFile) (hf : f ∈ files)
    (hbimg : occursIn "bimg" f.name = true) (hpdb : f.suffix ≠ ".pdb") :
    (⟨renameTarget msvcWin f.name f.suffix, f.suffix⟩ : PFile)
        ∈ renameStep msvcWin files
    ∧ renameTarget msvcWin f.name f.suffix
        ∈ [package_lib_pfx msvcWin ++ "bimg" ++ f.suffix,
           package_lib_pfx msvcWin ++ "bimg_encode" ++ f.suffix,
           package_lib_pfx msvcWin ++ "bimg_decode" ++ f.suffix]
    ∧ (occursIn "encode" f.name = true →
        renameTarget msvcWin f.name f.suffix
          = package_lib_pfx msvcWin ++ "bimg_encode" ++ f.suffix)
    ∧ package_lib_pfx msvcWin = (if msvcWin then "" else "lib")
    ∧ (∀ g ∈ packageLibDir msvcWin files, occursIn "bx" g.name = false) := by
  have hassoc : ∀ x : String,
      package_lib_pfx msvcWin ++ "bimg" ++ x ++ f.suffix
        = package_lib_pfx msvcWin ++ ("bimg" ++ x) ++ f.suffix := by
    intro x
    rw [String.append_assoc (package_lib_pfx msvcWin) "bimg" x]
  refine ⟨?_, ?_, ?_, by cases msvcWin <;> rfl, ?_⟩
  · simp only [renameStep, List.mem_map]
    exact ⟨f, hf, by simp [hbimg, hpdb]⟩
  · simp only [renameTarget]
    cases he : occursIn "encode" f.name with
    | true =>
      show package_lib_pfx msvcWin ++ "bimg" ++ "_encode" ++ f.suffix ∈ _
      rw [hassoc "_encode"]
      exact List.mem_cons_of_mem _ (List.mem_cons_self _ _)
    | false =>
      cases hd : occursIn "decode" f.name with
      | true =>
        show package_lib_pfx msvcWin ++ "bimg" ++ "_decode" ++ f.suffix ∈ _
        rw [hassoc "_decode"]
        exact List.mem_cons_of_mem _ (List.mem_cons_of_mem _
          (List.mem_cons_self _ _))
      | false =>
        show package_lib_pfx msvcWin ++ "bimg" ++ "" ++ f.suffix ∈ _
        rw [String.append_empty]
        exact List.mem_cons_self _ _
  · intro he
    simp only [renameTarget, he, if_true]
    exact hassoc "_encode"
  · intro g hg
    simp only [packageLibDir, rmStep, List.mem_filter, Bool.not_eq_true'] at hg
    exact hg.2

/-- Witness for `package_rename_and_cleanup`: on a non-MSVC platform,
`bimg_encodeRelease.a` is renamed to `libbimg_encode.a` and `libbx.a` is
cleaned out of `lib/`. -/
theorem package_rename_and_cleanup_witness :
    (⟨renameTarget false "bimg_encodeRelease.a" ".a", ".a"⟩ : PFile)
        ∈ renameStep false
            [⟨"bimg_encodeRelease.a", ".a"⟩, ⟨"libbx.a", ".a"⟩]
    ∧ renameTarget false "bimg_encodeRelease.a" ".a"
        = package_lib_pfx false ++ "bimg_encode" ++ ".a"
    ∧ ∀ g ∈ packageLibDir false
          [⟨"bimg_encodeRelease.a", ".a"⟩, ⟨"libbx.a", ".a"⟩],
        occursIn "bx" g.name = false := by
  have h := package_rename_and_cleanup false
    [⟨"bimg_encodeRelease.a", ".a"⟩, ⟨"libbx.a", ".a"⟩]
    ⟨"bimg_encodeRelease.a", ".a"⟩ (by decide) (by decide) (by decide)
  exact ⟨h.1, h.2.2.1 (by decide), h.2.2.2.2⟩

end BimgConan
